import Mathlib

/-!
Shallow embedding of `src/lib/api.ts` (the `whatsappApi` HTTP-client module
and its axios response interceptor).  JavaScript values that the code probes
with `||` or strict equality are modelled explicitly: optional fields become
`Option`, the dynamically-typed `retryable` field becomes a small primitive
value type, and JS string truthiness (`"" is falsy`) is modelled by `strOr`.
-/

/-- A JavaScript primitive value, used for the dynamically typed
`body.retryable` field, which the code compares with `!== false`. -/
inductive JsPrim where
  | undefined
  | null
  | boolean (b : Bool)
  | string (s : String)
  | number (n : Int)
deriving DecidableEq

/-- JS `a || b` on an optional string: `undefined`, `null` and `""` are falsy. -/
def strOr (value : Option String) (fallback : String) : String :=
  match value with
  | some s => if s.isEmpty then fallback else s
  | none => fallback

/-- JS truthiness of an optional string (used for `if (data.caption)`). -/
def jsTruthyStr : Option String → Bool
  | some s => !s.isEmpty
  | none => false

/-- The `status` union of the `WhatsAppSession` interface. -/
inductive SessionStatus where
  | initializing
  | qr
  | authenticated
  | ready
  | disconnected
deriving DecidableEq

/-- The optional `clientInfo` of a `WhatsAppSession`. -/
structure ClientInfo where
  pushname : String
  wid : String
  platform : String
deriving DecidableEq

/-- The `WhatsAppSession` interface. -/
structure WhatsAppSession where
  id : String
  status : SessionStatus
  qrCode : Option String := none
  clientInfo : Option ClientInfo := none
deriving DecidableEq

/-- The fields of a response body that `createSession` and the interceptor
read: `data`, `sessionId`, `retryable`, `message`, `error`. -/
structure ResponseBody where
  data : Option WhatsAppSession := none
  sessionId : Option String := none
  retryable : JsPrim := JsPrim.undefined
  message : Option String := none
  error : Option String := none
deriving DecidableEq

/-- The empty object `{}` used as the fallback for a falsy `response.data`. -/
def ResponseBody.empty : ResponseBody := {}

/-- An axios response as `createSession` sees it: the HTTP status, the parsed
body (`none` models a falsy `response.data`) and the single header the code
reads, `response.headers['retry-after']`. -/
structure HttpResponse where
  status : Nat
  data : Option ResponseBody := none
  retryAfter : Option String := none
deriving DecidableEq

/-- `const body = response.data || {}`. -/
def bodyOrEmpty (response : HttpResponse) : ResponseBody :=
  response.data.getD ResponseBody.empty

/-- The `error.config` object the interceptor probes for `url`. -/
structure AxiosConfig where
  url : Option String := none
deriving DecidableEq

/-- An axios error: an optional `response`, the `message` string and the
request `config`. -/
structure AxiosError where
  response : Option HttpResponse := none
  message : Option String := none
  config : Option AxiosConfig := none
deriving DecidableEq

/-- How one `api.post("/sessions", ...)` call comes back: a resolved
response or a thrown axios error. -/
inductive RequestOutcome where
  | resolved (response : HttpResponse)
  | thrown (error : AxiosError)
deriving DecidableEq

/-- The value `createSession` resolves with. -/
structure CreateSessionResult where
  ok : Bool
  retryable : Option Bool := none
  message : Option String := none
  sessionData : Option WhatsAppSession := none
  retryAfter : Option String := none
deriving DecidableEq

/-- The `try` branch of `createSession`: classification of a resolved
response (src/lib/api.ts lines 48-81). -/
def classifyResolved (sessionId : Option String) (response : HttpResponse) :
    CreateSessionResult :=
  let body := bodyOrEmpty response
  if response.status = 201 then
    { ok := true,
      sessionData := some (body.data.getD
        { id := strOr body.sessionId (strOr sessionId "default"),
          status := SessionStatus.initializing }) }
  else if response.status = 503 then
    { ok := false,
      retryable := some (if body.retryable = JsPrim.boolean false then false else true),
      message := some "Service temporarily unavailable. Retrying...",
      retryAfter := response.retryAfter }
  else if response.status = 500 ∧ body.retryable = JsPrim.boolean false then
    { ok := false, retryable := some false,
      message := some "Failed to initialize WhatsApp session. Please try again later." }
  else
    { ok := false, retryable := some false,
      message := some (strOr body.message ("HTTP " ++ toString response.status)) }

/-- The `catch` branch of `createSession`: classification of a thrown axios
error (src/lib/api.ts lines 82-119). -/
def classifyThrown (error : AxiosError) : CreateSessionResult :=
  match error.response with
  | some response =>
    let body := bodyOrEmpty response
    if response.status = 503 then
      { ok := false,
        retryable := some (if body.retryable = JsPrim.boolean false then false else true),
        message := some "Service temporarily unavailable. Retrying...",
        retryAfter := response.retryAfter }
    else if response.status = 500 ∧ body.retryable = JsPrim.boolean false then
      { ok := false, retryable := some false,
        message := some "Failed to initialize WhatsApp session. Please try again later." }
    else
      { ok := false, retryable := some false,
        message := some (strOr body.message ("HTTP " ++ toString response.status)) }
  | none =>
    { ok := false, retryable := some false,
      message := some (strOr error.message "Network error") }

/-- `whatsappApi.createSession`: the try branch handles a resolved response,
the catch branch a thrown error. -/
def createSession (sessionId : Option String) (outcome : RequestOutcome) :
    CreateSessionResult :=
  match outcome with
  | RequestOutcome.resolved response => classifyResolved sessionId response
  | RequestOutcome.thrown error => classifyThrown error

/-- Does the character list start with the pattern?  (Models the prefix test
underlying JS `String.prototype.includes`.) -/
def charsStartWith : List Char → List Char → Bool
  | [], _ => true
  | _ :: _, [] => false
  | p :: ps, c :: cs => p = c && charsStartWith ps cs

/-- Does the character list contain the pattern as a contiguous run? -/
def charsHaveSub (pat : List Char) : List Char → Bool
  | [] => pat.isEmpty
  | c :: cs => charsStartWith pat (c :: cs) || charsHaveSub pat cs

/-- JS `s.includes(pat)`. -/
def strIncludes (s pat : String) : Bool :=
  charsHaveSub pat.data s.data

/-- The HTTP methods the module uses. -/
inductive HttpMethod where
  | get
  | post
  | delete
deriving DecidableEq

/-- The `SendMediaRequest.file` field; an opaque browser `File` handle. -/
structure JsFile where
  name : String
deriving DecidableEq

/-- A value appended to a `FormData`: a string or a `File`. -/
inductive FormValue where
  | str (s : String)
  | file (f : JsFile)
deriving DecidableEq

/-- The single HTTP request an operation issues: method, url relative to the
axios `baseURL`, the effective Content-Type header (the instance default is
`application/json`), and the multipart form body when one is sent. -/
structure HttpRequest where
  method : HttpMethod
  url : String
  contentType : String := "application/json"
  formData : Option (List (String × FormValue)) := none
deriving DecidableEq

/-- The `SendMessageRequest` interface. -/
structure SendMessageRequest where
  «to» : String
  message : String
deriving DecidableEq

/-- The `SendMediaRequest` interface. -/
structure SendMediaRequest where
  «to» : String
  file : JsFile
  caption : Option String := none
deriving DecidableEq

/-- The `ApiResponse<T>` interface. -/
structure ApiResponse (T : Type) where
  success : Bool
  data : Option T := none
  error : Option String := none
  message : Option String := none
deriving DecidableEq

/-- The `{ messageId: string }` payload of the messaging endpoints. -/
structure SendMessageResult where
  messageId : String
deriving DecidableEq

/-- A generic axios response for the pass-through operations: `response.data`
is returned to the caller untouched. -/
structure AxiosResponse (T : Type) where
  status : Nat
  data : T
deriving DecidableEq

/-- How an awaited axios call comes back for a pass-through operation. -/
inductive FetchOutcome (T : Type) where
  | resolved (response : AxiosResponse T)
  | thrown (error : AxiosError)
deriving DecidableEq

/-- One wrapper operation of `whatsappApi`: the single request it issues and
what it resolves to (or rethrows) for each outcome of that request. -/
structure ApiCall (T : Type) where
  request : HttpRequest
  onOutcome : FetchOutcome T → Except AxiosError T

/-- `whatsappApi.createSession`'s single request: `api.post("/sessions", { sessionId })`. -/
def createSessionRequest (_sessionId : Option String) : HttpRequest :=
  { method := HttpMethod.post, url := "/sessions" }

/-- `whatsappApi.getAllSessions`. -/
def getAllSessions : ApiCall (ApiResponse (List WhatsAppSession)) :=
  { request := { method := HttpMethod.get, url := "/sessions" },
    onOutcome := fun outcome =>
      match outcome with
      | FetchOutcome.resolved response => Except.ok response.data
      | FetchOutcome.thrown error => Except.error error }

/-- `whatsappApi.getSessionStatus`. -/
def getSessionStatus (sessionId : String) : ApiCall (ApiResponse WhatsAppSession) :=
  { request := { method := HttpMethod.get, url := "/sessions/" ++ sessionId },
    onOutcome := fun outcome =>
      match outcome with
      | FetchOutcome.resolved response => Except.ok response.data
      | FetchOutcome.thrown error => Except.error error }

/-- `whatsappApi.logout`. -/
def logout (sessionId : String) : ApiCall (ApiResponse Unit) :=
  { request := { method := HttpMethod.post, url := "/sessions/" ++ sessionId ++ "/logout" },
    onOutcome := fun outcome =>
      match outcome with
      | FetchOutcome.resolved response => Except.ok response.data
      | FetchOutcome.thrown error => Except.error error }

/-- `whatsappApi.destroySession`. -/
def destroySession (sessionId : String) : ApiCall (ApiResponse Unit) :=
  { request := { method := HttpMethod.delete, url := "/sessions/" ++ sessionId },
    onOutcome := fun outcome =>
      match outcome with
      | FetchOutcome.resolved response => Except.ok response.data
      | FetchOutcome.thrown error => Except.error error }

/-- `whatsappApi.sendTextMessage`. -/
def sendTextMessage (sessionId : String) (_data : SendMessageRequest) :
    ApiCall (ApiResponse SendMessageResult) :=
  { request := { method := HttpMethod.post, url := "/sessions/" ++ sessionId ++ "/send-text" },
    onOutcome := fun outcome =>
      match outcome with
      | FetchOutcome.resolved response => Except.ok response.data
      | FetchOutcome.thrown error => Except.error error }

/-- `whatsappApi.sendMediaMessage`: builds a `FormData` with `to`, `file` and
(when truthy) `caption`, and posts it with Content-Type multipart/form-data. -/
def sendMediaMessage (sessionId : String) (data : SendMediaRequest) :
    ApiCall (ApiResponse SendMessageResult) :=
  let base := [("to", FormValue.str data.to), ("file", FormValue.file data.file)]
  let formData :=
    if jsTruthyStr data.caption then
      base ++ [("caption", FormValue.str (data.caption.getD ""))]
    else
      base
  { request := { method := HttpMethod.post,
                 url := "/sessions/" ++ sessionId ++ "/send-media",
                 contentType := "multipart/form-data",
                 formData := some formData },
    onOutcome := fun outcome =>
      match outcome with
      | FetchOutcome.resolved response => Except.ok response.data
      | FetchOutcome.thrown error => Except.error error }

/-- `whatsappApi.healthCheck`. -/
def healthCheck : ApiCall (ApiResponse Unit) :=
  { request := { method := HttpMethod.get, url := "/health" },
    onOutcome := fun outcome =>
      match outcome with
      | FetchOutcome.resolved response => Except.ok response.data
      | FetchOutcome.thrown error => Except.error error }

/-- `error.response?.status === 503`. -/
def statusIs503 : Option HttpResponse → Bool
  | some response => response.status = 503
  | none => false

/-- `error.config?.url?.includes('/sessions')`. -/
def urlIncludesSessions : Option AxiosConfig → Bool
  | some config =>
    match config.url with
    | some u => strIncludes u "/sessions"
    | none => false
  | none => false

/-- The guard of the response interceptor's rejection handler. -/
def interceptorShouldPassThrough (error : AxiosError) : Bool :=
  statusIs503 error.response && urlIncludesSessions error.config

/-- What the interceptor rejects with: the original error object, or a fresh
`Error` carrying only a message. -/
inductive InterceptResult where
  | rejectOriginal (error : AxiosError)
  | rejectNewError (message : String)
deriving DecidableEq

/-- The rejection handler of `api.interceptors.response.use`
(src/lib/api.ts lines 186-197). -/
def interceptorOnRejected (error : AxiosError) : InterceptResult :=
  if interceptorShouldPassThrough error then
    InterceptResult.rejectOriginal error
  else
    InterceptResult.rejectNewError
      (strOr ((error.response.bind fun r => r.data).bind fun b => b.error)
        (strOr error.message "Unknown error occurred"))

example :
    createSession none (RequestOutcome.resolved { status := 404 }) =
      { ok := false, retryable := some false, message := some "HTTP 404" } := by
  decide

example :
    createSession (some "abc") (RequestOutcome.resolved
      { status := 503, data := some { retryable := JsPrim.boolean false },
        retryAfter := some "7" }) =
      { ok := false, retryable := some false,
        message := some "Service temporarily unavailable. Retrying...",
        retryAfter := some "7" } := by
  decide

example :
    createSession (some "abc") (RequestOutcome.resolved { status := 201 }) =
      { ok := true,
        sessionData := some { id := "abc", status := SessionStatus.initializing } } := by
  decide

/-- C1: `createSession` on a resolved response is a decision table over the
status code and the body's `retryable` field: 201 yields ok with session
data; 503 yields not-ok with retryable true unless `retryable === false`;
500 with `retryable === false` yields the fixed non-retryable failure; every
other status yields a non-retryable failure whose message is `body.message`
or `HTTP <status>`. -/
theorem createSession_decision_table (sid : Option String) (response : HttpResponse) :
    (response.status = 201 →
      (createSession sid (RequestOutcome.resolved response)).ok = true ∧
      (createSession sid (RequestOutcome.resolved response)).sessionData.isSome = true) ∧
    (response.status = 503 →
      (createSession sid (RequestOutcome.resolved response)).ok = false ∧
      (createSession sid (RequestOutcome.resolved response)).retryable =
        some (if (bodyOrEmpty response).retryable = JsPrim.boolean false then false else true)) ∧
    (response.status = 500 → (bodyOrEmpty response).retryable = JsPrim.boolean false →
      createSession sid (RequestOutcome.resolved response) =
        { ok := false, retryable := some false,
          message := some "Failed to initialize WhatsApp session. Please try again later." }) ∧
    (response.status ≠ 201 → response.status ≠ 503 →
      ¬(response.status = 500 ∧ (bodyOrEmpty response).retryable = JsPrim.boolean false) →
      createSession sid (RequestOutcome.resolved response) =
        { ok := false, retryable := some false,
          message := some (strOr (bodyOrEmpty response).message
            ("HTTP " ++ toString response.status)) }) := by
  refine ⟨?_, ?_, ?_, ?_⟩
  · intro h
    simp [createSession, classifyResolved, h]
  · intro h
    simp [createSession, classifyResolved, h]
  · intro h hrf
    simp [createSession, classifyResolved, h, hrf]
  · intro h1 h2 h3
    simp [createSession, classifyResolved, h1, h2, h3]

/-- Witness for C1: a concrete 404 response lands in the fallback row. -/
theorem createSession_decision_table_witness :
    createSession none (RequestOutcome.resolved { status := 404 }) =
      { ok := false, retryable := some false, message := some "HTTP 404" } := by
  have h := (createSession_decision_table none { status := 404 }).2.2.2
    (by decide) (by decide) (by decide)
  rw [h]
  decide

/-- C2: for a 503 response, whether resolved or thrown, retryable is true
iff the body does not carry `retryable === false`, the message is the fixed
retry message, and retryAfter is the retry-after header. -/
theorem createSession_503_retry_signal (sid : Option String) (response : HttpResponse)
    (em : Option String) (cfg : Option AxiosConfig) (h : response.status = 503) :
    ((createSession sid (RequestOutcome.resolved response)).retryable = some true ↔
      (bodyOrEmpty response).retryable ≠ JsPrim.boolean false) ∧
    (createSession sid (RequestOutcome.resolved response)).message =
      some "Service temporarily unavailable. Retrying..." ∧
    (createSession sid (RequestOutcome.resolved response)).retryAfter = response.retryAfter ∧
    ((createSession sid (RequestOutcome.thrown
        { response := some response, message := em, config := cfg })).retryable = some true ↔
      (bodyOrEmpty response).retryable ≠ JsPrim.boolean false) ∧
    (createSession sid (RequestOutcome.thrown
        { response := some response, message := em, config := cfg })).message =
      some "Service temporarily unavailable. Retrying..." ∧
    (createSession sid (RequestOutcome.thrown
        { response := some response, message := em, config := cfg })).retryAfter =
      response.retryAfter := by
  refine ⟨?_, ?_, ?_, ?_, ?_, ?_⟩
  · simp only [createSession, classifyResolved, h]
    split_ifs with hrf <;> simp_all
  · simp [createSession, classifyResolved, h]
  · simp [createSession, classifyResolved, h]
  · simp only [createSession, classifyThrown, h]
    split_ifs with hrf <;> simp_all
  · simp [createSession, classifyThrown, h]
  · simp [createSession, classifyThrown, h]

/-- Witness for C2 at a concrete 503 response carrying a retry-after header. -/
theorem createSession_503_retry_signal_witness :
    (createSession none (RequestOutcome.resolved
      { status := 503, retryAfter := some "3" })).retryAfter = some "3" := by
  have h := (createSession_503_retry_signal none
    { status := 503, retryAfter := some "3" } none none rfl).2.2.1
  rw [h]

/-- C3: for any non-201 status, the try-branch classification of a resolved
response and the catch-branch classification of a thrown error carrying the
same response agree on the whole result. -/
theorem classify_branches_agree (sid : Option String) (response : HttpResponse)
    (em : Option String) (cfg : Option AxiosConfig) (h : response.status ≠ 201) :
    classifyResolved sid response =
      classifyThrown { response := some response, message := em, config := cfg } := by
  unfold classifyResolved classifyThrown
  simp [h]

/-- Witness for C3 at a concrete 503 response. -/
theorem classify_branches_agree_witness :
    classifyResolved none { status := 503 } =
      classifyThrown { response := some { status := 503 } } :=
  classify_branches_agree none { status := 503 } none none (by decide)

/-- C5: on a 201 response, sessionData is body.data when present, otherwise
a synthesized session whose id is body.sessionId, else the caller's
sessionId, else default, with status initializing. -/
theorem createSession_201_normalization (sid : Option String) (response : HttpResponse)
    (h : response.status = 201) :
    (createSession sid (RequestOutcome.resolved response)).ok = true ∧
    (∀ s, (bodyOrEmpty response).data = some s →
      (createSession sid (RequestOutcome.resolved response)).sessionData = some s) ∧
    ((bodyOrEmpty response).data = none →
      (createSession sid (RequestOutcome.resolved response)).sessionData =
        some { id := strOr (bodyOrEmpty response).sessionId (strOr sid "default"),
               status := SessionStatus.initializing }) := by
  refine ⟨?_, ?_, ?_⟩
  · simp [createSession, classifyResolved, h]
  · intro s hs
    simp [createSession, classifyResolved, h, hs]
  · intro hs
    simp [createSession, classifyResolved, h, hs]

/-- Witness for C5: a bare 201 response with a caller-supplied sessionId. -/
theorem createSession_201_normalization_witness :
    (createSession (some "abc") (RequestOutcome.resolved { status := 201 })).sessionData =
      some { id := "abc", status := SessionStatus.initializing } := by
  have h := (createSession_201_normalization (some "abc") { status := 201 } rfl).2.2 (by decide)
  rw [h]
  decide

/-- C7: `createSession` is a total function of the request outcome, and every
failing result carries a defined retryable flag and a defined message. -/
theorem createSession_failure_shape (sid : Option String) (outcome : RequestOutcome)
    (h : (createSession sid outcome).ok = false) :
    (createSession sid outcome).retryable.isSome = true ∧
    (createSession sid outcome).message.isSome = true := by
  cases outcome with
  | resolved response =>
    by_cases h201 : response.status = 201
    · simp [createSession, classifyResolved, h201] at h
    · simp [createSession, classifyResolved, h201]
      split_ifs <;> simp
  | thrown error =>
    cases herr : error.response with
    | some response =>
      simp [createSession, classifyThrown, herr]
      split_ifs <;> simp
    | none =>
      simp [createSession, classifyThrown, herr]

/-- Witness for C7: a thrown error with no response (network failure). -/
theorem createSession_failure_shape_witness :
    (createSession none (RequestOutcome.thrown { response := none })).retryable.isSome = true ∧
    (createSession none (RequestOutcome.thrown { response := none })).message.isSome = true :=
  createSession_failure_shape none (RequestOutcome.thrown { response := none }) (by decide)

/-- C4: each wrapper operation issues exactly one HTTP request, with the
method and path of its backend endpoint. -/
theorem api_request_table (sid : Option String) (id : String)
    (td : SendMessageRequest) (md : SendMediaRequest) :
    createSessionRequest sid = { method := HttpMethod.post, url := "/sessions" } ∧
    getAllSessions.request = { method := HttpMethod.get, url := "/sessions" } ∧
    (getSessionStatus id).request = { method := HttpMethod.get, url := "/sessions/" ++ id } ∧
    (logout id).request = { method := HttpMethod.post, url := "/sessions/" ++ id ++ "/logout" } ∧
    (destroySession id).request = { method := HttpMethod.delete, url := "/sessions/" ++ id } ∧
    (sendTextMessage id td).request =
      { method := HttpMethod.post, url := "/sessions/" ++ id ++ "/send-text" } ∧
    ((sendMediaMessage id md).request.method = HttpMethod.post ∧
      (sendMediaMessage id md).request.url = "/sessions/" ++ id ++ "/send-media") ∧
    healthCheck.request = { method := HttpMethod.get, url := "/health" } :=
  ⟨rfl, rfl, rfl, rfl, rfl, rfl, ⟨rfl, rfl⟩, rfl⟩

/-- C6: sendMediaMessage posts to /sessions/{id}/send-media with Content-Type
multipart/form-data, and its form data holds exactly the fields to and file,
plus caption exactly when a truthy caption is supplied. -/
theorem sendMediaMessage_request_shape (id : String) (data : SendMediaRequest) :
    (sendMediaMessage id data).request.method = HttpMethod.post ∧
    (sendMediaMessage id data).request.url = "/sessions/" ++ id ++ "/send-media" ∧
    (sendMediaMessage id data).request.contentType = "multipart/form-data" ∧
    (sendMediaMessage id data).request.formData =
      some (if jsTruthyStr data.caption then
        [("to", FormValue.str data.to), ("file", FormValue.file data.file),
         ("caption", FormValue.str (data.caption.getD ""))]
      else
        [("to", FormValue.str data.to), ("file", FormValue.file data.file)]) ∧
    ((sendMediaMessage id data).request.formData.getD []).map Prod.fst =
      (if jsTruthyStr data.caption then ["to", "file", "caption"] else ["to", "file"]) := by
  refine ⟨rfl, rfl, rfl, ?_, ?_⟩ <;>
    simp only [sendMediaMessage] <;> split_ifs <;> simp

/-- C9: every operation other than createSession resolves to response.data
unchanged and rethrows a rejection unchanged. -/
theorem ops_pass_through
    (r1 : AxiosResponse (ApiResponse (List WhatsAppSession)))
    (r2 : AxiosResponse (ApiResponse WhatsAppSession))
    (r3 r4 r7 : AxiosResponse (ApiResponse Unit))
    (r5 r6 : AxiosResponse (ApiResponse SendMessageResult))
    (e : AxiosError) (id : String) (td : SendMessageRequest) (md : SendMediaRequest) :
    (getAllSessions.onOutcome (FetchOutcome.resolved r1) = Except.ok r1.data ∧
      getAllSessions.onOutcome (FetchOutcome.thrown e) = Except.error e) ∧
    ((getSessionStatus id).onOutcome (FetchOutcome.resolved r2) = Except.ok r2.data ∧
      (getSessionStatus id).onOutcome (FetchOutcome.thrown e) = Except.error e) ∧
    ((logout id).onOutcome (FetchOutcome.resolved r3) = Except.ok r3.data ∧
      (logout id).onOutcome (FetchOutcome.thrown e) = Except.error e) ∧
    ((destroySession id).onOutcome (FetchOutcome.resolved r4) = Except.ok r4.data ∧
      (destroySession id).onOutcome (FetchOutcome.thrown e) = Except.error e) ∧
    ((sendTextMessage id td).onOutcome (FetchOutcome.resolved r5) = Except.ok r5.data ∧
      (sendTextMessage id td).onOutcome (FetchOutcome.thrown e) = Except.error e) ∧
    ((sendMediaMessage id md).onOutcome (FetchOutcome.resolved r6) = Except.ok r6.data ∧
      (sendMediaMessage id md).onOutcome (FetchOutcome.thrown e) = Except.error e) ∧
    (healthCheck.onOutcome (FetchOutcome.resolved r7) = Except.ok r7.data ∧
      healthCheck.onOutcome (FetchOutcome.thrown e) = Except.error e) :=
  ⟨⟨rfl, rfl⟩, ⟨rfl, rfl⟩, ⟨rfl, rfl⟩, ⟨rfl, rfl⟩, ⟨rfl, rfl⟩, ⟨rfl, rfl⟩, ⟨rfl, rfl⟩⟩

lemma statusIs503_iff (o : Option HttpResponse) :
    statusIs503 o = true ↔ ∃ r, o = some r ∧ r.status = 503 := by
  cases o <;> simp [statusIs503]

lemma urlIncludesSessions_iff (o : Option AxiosConfig) :
    urlIncludesSessions o = true ↔
      ∃ c u, o = some c ∧ c.url = some u ∧ strIncludes u "/sessions" = true := by
  cases o with
  | none => simp [urlIncludesSessions]
  | some c => cases hu : c.url <;> simp [urlIncludesSessions, hu]

/-- C8: the interceptor rejects with the original error object exactly when
the response status is 503 and the request url contains /sessions; every
other rejection becomes a new Error whose message is data.error, else
error.message, else the fixed fallback. -/
theorem interceptor_classification (e : AxiosError) :
    (interceptorOnRejected e = InterceptResult.rejectOriginal e ↔
      ((∃ r, e.response = some r ∧ r.status = 503) ∧
        ∃ c u, e.config = some c ∧ c.url = some u ∧ strIncludes u "/sessions" = true)) ∧
    (¬((∃ r, e.response = some r ∧ r.status = 503) ∧
        ∃ c u, e.config = some c ∧ c.url = some u ∧ strIncludes u "/sessions" = true) →
      interceptorOnRejected e = InterceptResult.rejectNewError
        (strOr ((e.response.bind fun r => r.data).bind fun b => b.error)
          (strOr e.message "Unknown error occurred"))) := by
  have hiff : interceptorShouldPassThrough e = true ↔
      ((∃ r, e.response = some r ∧ r.status = 503) ∧
        ∃ c u, e.config = some c ∧ c.url = some u ∧ strIncludes u "/sessions" = true) := by
    rw [interceptorShouldPassThrough, Bool.and_eq_true,
      statusIs503_iff, urlIncludesSessions_iff]
  constructor
  · rw [← hiff]
    unfold interceptorOnRejected
    split_ifs with hpass <;> simp [hpass]
  · intro hn
    rw [← hiff] at hn
    unfold interceptorOnRejected
    rw [if_neg hn]

/-- Witness for C8: an error with no response becomes a new Error carrying
error.message. -/
theorem interceptor_classification_witness :
    interceptorOnRejected { message := some "boom" } =
      InterceptResult.rejectNewError "boom" := by
  have hn : ¬((∃ r, ({ message := some "boom" } : AxiosError).response = some r ∧
        r.status = 503) ∧
      ∃ c u, ({ message := some "boom" } : AxiosError).config = some c ∧
        c.url = some u ∧ strIncludes u "/sessions" = true) := by
    rintro ⟨⟨r, hr, _⟩, _⟩
    exact Option.noConfusion hr
  have h := (interceptor_classification { message := some "boom" }).2 hn
  rw [h]
  decide
